import Mathlib

/-!
Verification of the Presto focus-timer backend (src/src-tauri/src/lib.rs).

The Rust source is shallowly embedded: timestamps (`std::time::Instant`,
millisecond/second durations) become `Nat` in a single abstract time unit,
the global `HashMap<String, Instant>` debounce registry becomes an
association list, and each persisted JSON file becomes an explicit
file-state value (absent / unparsable / parsed content).  Stateful Rust
functions become pure functions from the old state to the new state
together with their return value.
-/

namespace Presto

/-! ### Debounce registry (`should_debounce_shortcut`, lib.rs lines 184-198)

The Rust code keeps a global `HashMap<String, Instant>`.  We model it as an
association list keyed by the action name; `insert` overwrites the entry
for the key, `List.lookup` retrieves it.  `Instant::now()` is passed in
explicitly as a `Nat` time. -/

abbrev DebounceMap := List (String × Nat)

/-- `Duration::from_millis(500)` — the debounce window. -/
def debounceDurationMs : Nat := 500

/-- `HashMap::insert`: overwrite the entry for `action` with time `now`. -/
def debounceInsert (action : String) (now : Nat) (m : DebounceMap) : DebounceMap :=
  (action, now) :: m.filter (fun p => p.1 != action)

/-- `should_debounce_shortcut` (lib.rs 185-198): if an entry for `action`
exists and less than 500ms elapsed since it, return `true` leaving the map
untouched; otherwise record `now` for `action` and return `false`. -/
def should_debounce_shortcut (action : String) (now : Nat) (m : DebounceMap) :
    Bool × DebounceMap :=
  match m.lookup action with
  | some last =>
      if now - last < debounceDurationMs then (true, m)
      else (false, debounceInsert action now m)
  | none => (false, debounceInsert action now m)

/-- Run a sequence of `should_debounce_shortcut` calls on the same action at
the given times, threading the registry, and collect the returned booleans. -/
def runDebounce (action : String) (ts : List Nat) (m : DebounceMap) : List Bool :=
  match ts with
  | [] => []
  | t :: rest =>
      (should_debounce_shortcut action t m).1 ::
        runDebounce action rest (should_debounce_shortcut action t m).2

theorem lookup_debounceInsert_self (action : String) (now : Nat) (m : DebounceMap) :
    (debounceInsert action now m).lookup action = some now := by
  simp [debounceInsert, List.lookup]

theorem sdb_none (action : String) (now : Nat) (m : DebounceMap)
    (h : m.lookup action = none) :
    should_debounce_shortcut action now m = (false, debounceInsert action now m) := by
  simp [should_debounce_shortcut, h]

theorem sdb_lt (action : String) (now last : Nat) (m : DebounceMap)
    (h : m.lookup action = some last) (hlt : now - last < debounceDurationMs) :
    should_debounce_shortcut action now m = (true, m) := by
  simp [should_debounce_shortcut, h, hlt]

theorem sdb_ge (action : String) (now last : Nat) (m : DebounceMap)
    (h : m.lookup action = some last) (hge : ¬ now - last < debounceDurationMs) :
    should_debounce_shortcut action now m = (false, debounceInsert action now m) := by
  simp [should_debounce_shortcut, h, hge]

/-- Once `action` maps to time `s`, every further call within the 500ms
window starting at `s` returns `true` (and leaves the registry unchanged). -/
theorem runDebounce_all_true (action : String) :
    ∀ (ts : List Nat) (m : DebounceMap) (s : Nat),
      m.lookup action = some s →
      (∀ t ∈ ts, t - s < debounceDurationMs) →
      runDebounce action ts m = ts.map (fun _ => true) := by
  intro ts
  induction ts with
  | nil => intro m s _ _; rfl
  | cons t rest ih =>
      intro m s hs hall
      have ht : t - s < debounceDurationMs := hall t (List.mem_cons_self t rest)
      have hstep := sdb_lt action t s m hs ht
      simp only [runDebounce, hstep, List.map_cons]
      exact congrArg (fun l => true :: l)
        (ih m s hs (fun u hu => hall u (List.mem_cons_of_mem t hu)))

/-- Once `action` maps to time `s`, a chain of calls each at least 500ms
after the previously recorded time all return `false`. -/
theorem runDebounce_all_false (action : String) :
    ∀ (ts : List Nat) (m : DebounceMap) (s : Nat),
      m.lookup action = some s →
      List.Chain (fun x y => x + debounceDurationMs ≤ y) s ts →
      runDebounce action ts m = ts.map (fun _ => false) := by
  intro ts
  induction ts with
  | nil => intro m s _ _; rfl
  | cons t rest ih =>
      intro m s hs hchain
      rcases hchain with _ | ⟨hst, hrest⟩
      have hge : ¬ t - s < debounceDurationMs := by omega
      have hstep := sdb_ge action t s m hs hge
      simp only [runDebounce, hstep, List.map_cons]
      exact congrArg (fun l => false :: l)
        (ih _ t (lookup_debounceInsert_self action t m) hrest)

/-- A call that reports "debounce" (returns `true`) leaves the registry
untouched: the stored last-fire time is not updated. -/
theorem sdb_true_no_update (action : String) (t : Nat) (m2 : DebounceMap)
    (htrue : (should_debounce_shortcut action t m2).1 = true) :
    (should_debounce_shortcut action t m2).2 = m2 := by
  unfold should_debounce_shortcut at htrue ⊢
  rcases hlk : m2.lookup action with _ | last
  · simp [hlk] at htrue
  · simp only [hlk] at htrue ⊢
    by_cases hc : t - last < debounceDurationMs
    · simp [hc]
    · simp [hc] at htrue

/-- **C1.** For an action with no entry in the registry: the first call
returns `false`; a call that is debounced (returns `true`) does not update
the registry at all; if every later call falls less than 500ms after the
first call, only the first returns `false`; and if consecutive calls are
spaced at least 500ms apart, every call returns `false`. -/
theorem C1_debounce_behavior (a : String) (m : DebounceMap) (t0 : Nat) (rest : List Nat)
    (habsent : m.lookup a = none) :
    (should_debounce_shortcut a t0 m).1 = false ∧
    (∀ (t : Nat) (m2 : DebounceMap),
      (should_debounce_shortcut a t m2).1 = true → (should_debounce_shortcut a t m2).2 = m2) ∧
    ((∀ t ∈ rest, t0 ≤ t ∧ t - t0 < debounceDurationMs) →
      runDebounce a (t0 :: rest) m = false :: rest.map (fun _ => true)) ∧
    (List.Chain (fun x y => x + debounceDurationMs ≤ y) t0 rest →
      runDebounce a (t0 :: rest) m = (t0 :: rest).map (fun _ => false)) := by
  have hfirst := sdb_none a t0 m habsent
  refine ⟨by simp [hfirst], sdb_true_no_update a, ?_, ?_⟩
  · intro hwin
    simp only [runDebounce, hfirst]
    exact congrArg (fun l => false :: l)
      (runDebounce_all_true a rest _ t0 (lookup_debounceInsert_self a t0 m)
        (fun t ht => (hwin t ht).2))
  · intro hchain
    simp only [runDebounce, hfirst, List.map_cons]
    exact congrArg (fun l => false :: l)
      (runDebounce_all_false a rest _ t0 (lookup_debounceInsert_self a t0 m) hchain)

/-- Witness for C1 at a concrete input: action `start-stop`, empty registry,
calls at times 0, 100, 200 (window case) and chain case. -/
theorem C1_debounce_behavior_witness :
    (should_debounce_shortcut "start-stop" 0 ([] : DebounceMap)).1 = false ∧
    runDebounce "start-stop" [0, 100, 200] [] = [false, true, true] := by
  have h := C1_debounce_behavior "start-stop" [] 0 [100, 200] (by rfl)
  refine ⟨h.1, ?_⟩
  have hw := h.2.2.1 (by decide)
  simpa using hw

/-! ### Daily session summaries (`PomodoroSession`, lib.rs 33-39) and the
session-history store (`save_daily_stats`, lib.rs 509-545). -/

structure PomodoroSession where
  completed_pomodoros : Nat
  total_focus_time : Nat
  current_session : Nat
  date : String
deriving DecidableEq

/-- The comparator `|a, b| a.date.cmp(&b.date)` used by
`history.sort_by` — ascending order on the date string. -/
def histLe (a b : PomodoroSession) : Bool := decide (a.date ≤ b.date)

/-- The history after `save_daily_stats` has removed the entries sharing the
new session's date (`retain`), pushed the new session, and sorted by date
(`sort_by`), but before the 30-entry truncation. -/
def sortedHist (session : PomodoroSession) (history : List PomodoroSession) :
    List PomodoroSession :=
  ((history.filter (fun s => s.date != session.date)) ++ [session]).mergeSort histLe

/-- `save_daily_stats` (lib.rs 509-545) applied to the parsed history:
retain entries of other dates, push the new session, sort ascending by date,
and if more than 30 entries remain drain the oldest from the front. -/
def save_daily_stats (session : PomodoroSession) (history : List PomodoroSession) :
    List PomodoroSession :=
  if (sortedHist session history).length > 30 then
    (sortedHist session history).drop ((sortedHist session history).length - 30)
  else
    (sortedHist session history)

/-- A sequence of `save_daily_stats` calls threading the persisted history,
starting from the empty history (absent or unparsable file). -/
def recordDailyAll (sessions : List PomodoroSession) : List PomodoroSession :=
  sessions.foldl (fun h s => save_daily_stats s h) []

theorem histLe_iff (a b : PomodoroSession) : histLe a b = true ↔ a.date ≤ b.date := by
  simp [histLe]

theorem histLe_trans (a b c : PomodoroSession) (hab : histLe a b = true)
    (hbc : histLe b c = true) : histLe a c = true := by
  rw [histLe_iff] at hab hbc ⊢
  exact le_trans hab hbc

theorem histLe_total (a b : PomodoroSession) : (histLe a b || histLe b a) = true := by
  simp only [histLe, Bool.or_eq_true, decide_eq_true_eq]
  exact le_total a.date b.date

theorem sortedHist_pairwise (session : PomodoroSession) (history : List PomodoroSession) :
    List.Pairwise (fun a b => histLe a b = true) (sortedHist session history) :=
  List.sorted_mergeSort histLe_trans histLe_total _

theorem save_daily_stats_sublist (session : PomodoroSession) (history : List PomodoroSession) :
    (save_daily_stats session history).Sublist (sortedHist session history) := by
  unfold save_daily_stats
  split
  · exact List.drop_sublist _ _
  · exact List.Sublist.refl _

theorem save_daily_stats_pairwise (session : PomodoroSession) (history : List PomodoroSession) :
    List.Pairwise (fun a b => histLe a b = true) (save_daily_stats session history) :=
  (sortedHist_pairwise session history).sublist (save_daily_stats_sublist session history)

theorem sortedHist_dates_nodup (session : PomodoroSession) (history : List PomodoroSession)
    (hnd : (history.map (fun s => s.date)).Nodup) :
    ((sortedHist session history).map (fun s => s.date)).Nodup := by
  have hperm : (sortedHist session history).Perm
      ((history.filter (fun s => s.date != session.date)) ++ [session]) :=
    List.mergeSort_perm _ _
  rw [List.Perm.nodup_iff (hperm.map (fun s => s.date))]
  rw [List.map_append]
  refine List.Nodup.append ?_ (by simp) ?_
  · exact hnd.sublist ((List.filter_sublist history).map (fun s => s.date))
  · intro x hx hxs
    rcases List.mem_map.mp hx with ⟨y, hy, rfl⟩
    have hne := List.of_mem_filter hy
    rw [bne_iff_ne] at hne
    have hxeq : y.date = session.date := by simpa using hxs
    exact hne hxeq

theorem save_daily_stats_dates_nodup (session : PomodoroSession)
    (history : List PomodoroSession)
    (hnd : (history.map (fun s => s.date)).Nodup) :
    ((save_daily_stats session history).map (fun s => s.date)).Nodup :=
  (sortedHist_dates_nodup session history hnd).sublist
    ((save_daily_stats_sublist session history).map (fun s => s.date))

theorem save_daily_stats_length (session : PomodoroSession) (history : List PomodoroSession) :
    (save_daily_stats session history).length ≤ 30 := by
  unfold save_daily_stats
  split
  · rename_i h
    rw [List.length_drop]
    omega
  · rename_i h
    omega

theorem save_daily_stats_last_write (session : PomodoroSession)
    (history : List PomodoroSession) :
    ∀ x ∈ save_daily_stats session history, x.date = session.date → x = session := by
  intro x hx hdate
  have hx2 : x ∈ sortedHist session history :=
    (save_daily_stats_sublist session history).subset hx
  have hx3 : x ∈ (history.filter (fun s => s.date != session.date)) ++ [session] :=
    (List.mergeSort_perm _ _).subset hx2
  rcases List.mem_append.mp hx3 with hmem | hmem
  · have hne := List.of_mem_filter hmem
    rw [bne_iff_ne] at hne
    exact absurd hdate hne
  · simpa using hmem

theorem save_daily_stats_truncates (session : PomodoroSession)
    (history : List PomodoroSession)
    (hlen : 30 < (sortedHist session history).length) :
    save_daily_stats session history =
      (sortedHist session history).drop ((sortedHist session history).length - 30) ∧
    ∀ x ∈ (sortedHist session history).take ((sortedHist session history).length - 30),
      ∀ y ∈ save_daily_stats session history, x.date ≤ y.date := by
  have heq : save_daily_stats session history =
      (sortedHist session history).drop ((sortedHist session history).length - 30) := by
    unfold save_daily_stats
    split
    · rfl
    · omega
  refine ⟨heq, ?_⟩
  intro x hx y hy
  rw [heq] at hy
  have hpw : List.Pairwise (fun a b => histLe a b = true)
      ((sortedHist session history).take ((sortedHist session history).length - 30) ++
        (sortedHist session history).drop ((sortedHist session history).length - 30)) := by
    rw [List.take_append_drop]
    exact sortedHist_pairwise session history
  have hxy := (List.pairwise_append.mp hpw).2.2 x hx y hy
  exact (histLe_iff x y).mp hxy

theorem recordDailyAll_inv :
    ∀ (sessions : List PomodoroSession) (h : List PomodoroSession),
      (h.map (fun s => s.date)).Nodup → h.length ≤ 30 →
      List.Pairwise (fun a b => histLe a b = true) h →
      ((sessions.foldl (fun acc s => save_daily_stats s acc) h).map
        (fun s => s.date)).Nodup ∧
      (sessions.foldl (fun acc s => save_daily_stats s acc) h).length ≤ 30 ∧
      List.Pairwise (fun a b => histLe a b = true)
        (sessions.foldl (fun acc s => save_daily_stats s acc) h) := by
  intro sessions
  induction sessions with
  | nil => intro h h1 h2 h3; exact ⟨h1, h2, h3⟩
  | cons s rest ih =>
      intro h h1 h2 h3
      simp only [List.foldl_cons]
      exact ih _ (save_daily_stats_dates_nodup s h h1) (save_daily_stats_length s h)
        (save_daily_stats_pairwise s h)

/-- **C2.** After any sequence of `save_daily_stats` calls starting from the
empty history: the dates of the stored entries are pairwise distinct, the
history has at most 30 entries, and it is sorted ascending by date string.
Moreover, for a single call: every surviving entry carrying the new
session's date is the new session itself (last write per date wins), and
when the sorted history exceeds 30 entries the call keeps exactly the
suffix of the 30 greatest dates, every dropped entry's date being at most
every kept entry's date (oldest dropped from the front). -/
theorem C2_history_invariants (sessions : List PomodoroSession) :
    ((recordDailyAll sessions).map (fun s => s.date)).Nodup ∧
    (recordDailyAll sessions).length ≤ 30 ∧
    List.Pairwise (fun a b => a.date ≤ b.date) (recordDailyAll sessions) ∧
    (∀ (s : PomodoroSession) (h : List PomodoroSession),
      ∀ x ∈ save_daily_stats s h, x.date = s.date → x = s) ∧
    (∀ (s : PomodoroSession) (h : List PomodoroSession),
      30 < (sortedHist s h).length →
      save_daily_stats s h = (sortedHist s h).drop ((sortedHist s h).length - 30) ∧
      ∀ x ∈ (sortedHist s h).take ((sortedHist s h).length - 30),
        ∀ y ∈ save_daily_stats s h, x.date ≤ y.date) := by
  obtain ⟨h1, h2, h3⟩ :=
    recordDailyAll_inv sessions [] (by simp) (by simp) (by simp)
  exact ⟨h1, h2, h3.imp (fun hab => (histLe_iff _ _).mp hab),
    save_daily_stats_last_write, save_daily_stats_truncates⟩

/-- Witness for C2 at a concrete input: two records for the same date and
one for the next day. -/
theorem C2_history_invariants_witness :
    ((recordDailyAll [⟨1, 1500, 1, "2024-01-01"⟩, ⟨2, 3000, 2, "2024-01-01"⟩,
        ⟨1, 1500, 1, "2024-01-02"⟩]).map (fun s => s.date)).Nodup ∧
    (recordDailyAll [⟨1, 1500, 1, "2024-01-01"⟩, ⟨2, 3000, 2, "2024-01-01"⟩,
        ⟨1, 1500, 1, "2024-01-02"⟩]).length ≤ 30 := by
  have h := C2_history_invariants [⟨1, 1500, 1, "2024-01-01"⟩,
    ⟨2, 3000, 2, "2024-01-01"⟩, ⟨1, 1500, 1, "2024-01-02"⟩]
  exact ⟨h.1, h.2.1⟩

/-! ### Persisted JSON files

Each store is one JSON document.  A file is absent, present but unparsable
for the expected type, or present with parsed content. -/

inductive StoredFile (α : Type) where
  | absent
  | corrupt
  | json (content : α)
deriving DecidableEq

/-- `load_session_data` (lib.rs 409-443).  `today` is the
`chrono::Local::now().format("%a %b %d %Y")` date string, passed in
explicitly.  The result is the command's return value together with the
state of `session.json` after the call: on a date mismatch the counters are
zeroed, the session number reset to 1, the date advanced to today, and the
reset record is written back before being returned. -/
def load_session_data (today : String) (file : StoredFile PomodoroSession) :
    Except String (Option PomodoroSession) × StoredFile PomodoroSession :=
  match file with
  | .absent => (Except.ok none, .absent)
  | .corrupt => (Except.error "Failed to parse session", .corrupt)
  | .json s =>
      if s.date = today then (Except.ok (some s), .json s)
      else
        (Except.ok (some { completed_pomodoros := 0, total_focus_time := 0,
                           current_session := 1, date := today }),
          .json { completed_pomodoros := 0, total_focus_time := 0,
                  current_session := 1, date := today })

/-- **C3.** Loading a persisted session record whose date differs from
today returns the reset record (zeroed counters, session 1, date = today),
persists that record to the store, and a second load on the same day
returns the same record with the store unchanged. -/
theorem C3_date_rollover (today : String) (s : PomodoroSession)
    (hne : s.date ≠ today) :
    load_session_data today (StoredFile.json s) =
      (Except.ok (some ⟨0, 0, 1, today⟩), StoredFile.json ⟨0, 0, 1, today⟩) ∧
    load_session_data today (StoredFile.json (⟨0, 0, 1, today⟩ : PomodoroSession)) =
      (Except.ok (some ⟨0, 0, 1, today⟩), StoredFile.json ⟨0, 0, 1, today⟩) := by
  constructor
  · simp [load_session_data, hne]
  · simp [load_session_data]

/-- Witness for C3: a record saved on Dec 31 loaded on Jan 1. -/
theorem C3_date_rollover_witness :
    load_session_data "Mon Jan 01 2024" (StoredFile.json ⟨4, 6000, 5, "Sun Dec 31 2023"⟩) =
      (Except.ok (some ⟨0, 0, 1, "Mon Jan 01 2024"⟩),
        StoredFile.json ⟨0, 0, 1, "Mon Jan 01 2024"⟩) :=
  (C3_date_rollover "Mon Jan 01 2024" ⟨4, 6000, 5, "Sun Dec 31 2023"⟩ (by decide)).1

/-! ### Other persisted record types (lib.rs 41-78) and their loaders. -/

structure Tag where
  id : String
  name : String
  icon : String
  color : String
  created_at : String
deriving DecidableEq

/-- A `serde_json::Value` carried opaquely (the code never inspects the tag
objects attached to a manual session). -/
inductive JsonValue where
  | raw (s : String)
deriving DecidableEq

structure ManualSession where
  id : String
  session_type : String
  duration : Nat
  start_time : String
  end_time : String
  notes : Option String
  created_at : String
  date : String
  tags : Option (List JsonValue)
deriving DecidableEq

structure SessionTag where
  session_id : String
  tag_id : String
  duration : Nat
  created_at : String
deriving DecidableEq

structure Task where
  id : Nat
  text : String
  completed : Bool
  created_at : String
  completed_at : Option String
deriving DecidableEq

/-- `get_stats_history` (lib.rs 489-507): absent file is the empty list,
but an unparsable file is a hard error (`serde_json::from_str(...)?`). -/
def get_stats_history : StoredFile (List PomodoroSession) →
    Except String (List PomodoroSession)
  | .absent => Except.ok []
  | .corrupt => Except.error "Failed to parse history"
  | .json h => Except.ok h

/-- `load_manual_sessions` (lib.rs 840-858): absent file is the empty list,
but an unparsable file is a hard error. -/
def load_manual_sessions : StoredFile (List ManualSession) →
    Except String (List ManualSession)
  | .absent => Except.ok []
  | .corrupt => Except.error "Failed to parse manual sessions"
  | .json s => Except.ok s

/-- `load_tasks` (lib.rs 469-487): absent file is the empty list, an
unparsable file is a hard error. -/
def load_tasks : StoredFile (List Task) → Except String (List Task)
  | .absent => Except.ok []
  | .corrupt => Except.error "Failed to parse tasks"
  | .json t => Except.ok t

/-- The built-in tag returned when `tags.json` does not exist
(lib.rs 1146-1157); `now_secs` is `SystemTime::now()` as seconds since the
Unix epoch. -/
def default_tag (now_secs : Nat) : Tag :=
  { id := "default-focus", name := "Focus", icon := "ri-brain-line",
    color := "#4CAF50", created_at := toString now_secs }

/-- `load_tags` (lib.rs 1132-1160): an unparsable file degrades to the
empty list (`unwrap_or_else`), while an absent file yields the built-in
default focus tag. -/
def load_tags (now_secs : Nat) : StoredFile (List Tag) → Except String (List Tag)
  | .absent => Except.ok [default_tag now_secs]
  | .corrupt => Except.ok []
  | .json t => Except.ok t

/-- `load_session_tags` (lib.rs 1204-1220): absent file is the empty list
and an unparsable file degrades to the empty list (`unwrap_or_else`). -/
def load_session_tags : StoredFile (List SessionTag) →
    Except String (List SessionTag)
  | .absent => Except.ok []
  | .corrupt => Except.ok []
  | .json t => Except.ok t

/-- The history load inside `save_daily_stats` (lib.rs 521-527):
`serde_json::from_str(...).unwrap_or_else(|_| Vec::new())` — an absent or
unparsable history becomes the empty list. -/
def historyForSave : StoredFile (List PomodoroSession) → List PomodoroSession
  | .absent => []
  | .corrupt => []
  | .json h => h

/-! ### Settings (`AppSettings` and friends, lib.rs 80-182) and the
settings store (`load_settings`, lib.rs 662-680).

The serde derive semantics of the Rust structs are embedded at the level of
a "document": each document field is `Option`-wrapped (present in the JSON
object or missing).  A field with no serde attribute is required — missing
means the whole record fails to deserialize — except that fields of Rust
type `Option<T>` implicitly default to `None` when missing.  A field with
`#[serde(default)]` or `#[serde(default = "f")]` takes its default when
missing. -/

structure ShortcutSettings where
  start_stop : Option String
  reset : Option String
  skip : Option String
deriving DecidableEq

structure TimerSettings where
  focus_duration : Nat
  break_duration : Nat
  long_break_duration : Nat
  total_sessions : Nat
  weekly_goal_minutes : Nat
deriving DecidableEq

structure NotificationSettings where
  desktop_notifications : Bool
  sound_notifications : Bool
  auto_start_timer : Bool
  auto_start_focus : Bool
  allow_continuous_sessions : Bool
  smart_pause : Bool
  smart_pause_timeout : Nat
deriving DecidableEq

structure AdvancedSettings where
  debug_mode : Bool
deriving DecidableEq

structure AppSettings where
  shortcuts : ShortcutSettings
  timer : TimerSettings
  notifications : NotificationSettings
  advanced : AdvancedSettings
  autostart : Bool
  analytics_enabled : Bool
  hide_icon_on_close : Bool
deriving DecidableEq

/-- `default_weekly_goal` (lib.rs 111-113). -/
def default_weekly_goal : Nat := 125

/-- `default_analytics_enabled` (lib.rs 115-117). -/
def default_analytics_enabled : Bool := true

/-- `impl Default for AdvancedSettings` (lib.rs 146-150). -/
def AdvancedSettings.default : AdvancedSettings := { debug_mode := false }

/-- `impl Default for AppSettings` (lib.rs 152-182). -/
def AppSettings.default : AppSettings :=
  { shortcuts := { start_stop := some "CommandOrControl+Alt+Space",
                   reset := some "CommandOrControl+Alt+R",
                   skip := some "CommandOrControl+Alt+S" },
    timer := { focus_duration := 25, break_duration := 5,
               long_break_duration := 20, total_sessions := 10,
               weekly_goal_minutes := 125 },
    notifications := { desktop_notifications := true, sound_notifications := true,
                       auto_start_timer := true, auto_start_focus := false,
                       allow_continuous_sessions := false, smart_pause := false,
                       smart_pause_timeout := 30 },
    advanced := AdvancedSettings.default,
    autostart := false,
    analytics_enabled := true,
    hide_icon_on_close := false }

/-! Documents: the persisted JSON objects before field-level defaulting. -/

structure ShortcutSettingsDoc where
  start_stop : Option (Option String)
  reset : Option (Option String)
  skip : Option (Option String)
deriving DecidableEq

structure TimerSettingsDoc where
  focus_duration : Option Nat
  break_duration : Option Nat
  long_break_duration : Option Nat
  total_sessions : Option Nat
  weekly_goal_minutes : Option Nat
deriving DecidableEq

structure NotificationSettingsDoc where
  desktop_notifications : Option Bool
  sound_notifications : Option Bool
  auto_start_timer : Option Bool
  auto_start_focus : Option Bool
  allow_continuous_sessions : Option Bool
  smart_pause : Option Bool
  smart_pause_timeout : Option Nat
deriving DecidableEq

structure AdvancedSettingsDoc where
  debug_mode : Option Bool
deriving DecidableEq

structure AppSettingsDoc where
  shortcuts : Option ShortcutSettingsDoc
  timer : Option TimerSettingsDoc
  notifications : Option NotificationSettingsDoc
  advanced : Option AdvancedSettingsDoc
  autostart : Option Bool
  analytics_enabled : Option Bool
  hide_icon_on_close : Option Bool
deriving DecidableEq

/-- serde: a field with no attribute and non-`Option` type is required. -/
def reqField {α : Type} (field : String) (v : Option α) : Except String α :=
  match v with
  | some a => Except.ok a
  | none => Except.error ("missing field " ++ field)

/-- Deserialize `ShortcutSettings`: all three fields are `Option<String>`,
so a missing field becomes `None` (serde's implicit `Option` defaulting). -/
def parseShortcutSettings (d : ShortcutSettingsDoc) : ShortcutSettings :=
  { start_stop := d.start_stop.getD none,
    reset := d.reset.getD none,
    skip := d.skip.getD none }

/-- Deserialize `TimerSettings` (lib.rs 101-109): the four duration/count
fields are required; `weekly_goal_minutes` carries
`#[serde(default = "default_weekly_goal")]`. -/
def parseTimerSettings (d : TimerSettingsDoc) : Except String TimerSettings := do
  let focus ← reqField "focus_duration" d.focus_duration
  let brk ← reqField "break_duration" d.break_duration
  let lbrk ← reqField "long_break_duration" d.long_break_duration
  let tot ← reqField "total_sessions" d.total_sessions
  Except.ok { focus_duration := focus, break_duration := brk,
              long_break_duration := lbrk, total_sessions := tot,
              weekly_goal_minutes := d.weekly_goal_minutes.getD default_weekly_goal }

/-- Deserialize `NotificationSettings` (lib.rs 127-138): five required
fields; `auto_start_focus` and `allow_continuous_sessions` carry
`#[serde(default)]` (false). -/
def parseNotificationSettings (d : NotificationSettingsDoc) :
    Except String NotificationSettings := do
  let dn ← reqField "desktop_notifications" d.desktop_notifications
  let sn ← reqField "sound_notifications" d.sound_notifications
  let ast ← reqField "auto_start_timer" d.auto_start_timer
  let sp ← reqField "smart_pause" d.smart_pause
  let spt ← reqField "smart_pause_timeout" d.smart_pause_timeout
  Except.ok { desktop_notifications := dn, sound_notifications := sn,
              auto_start_timer := ast,
              auto_start_focus := d.auto_start_focus.getD false,
              allow_continuous_sessions := d.allow_continuous_sessions.getD false,
              smart_pause := sp, smart_pause_timeout := spt }

/-- Deserialize `AdvancedSettings` (lib.rs 140-144): `debug_mode` carries
`#[serde(default)]`. -/
def parseAdvancedSettings (d : AdvancedSettingsDoc) : AdvancedSettings :=
  { debug_mode := d.debug_mode.getD false }

/-- Deserialize `AppSettings` (lib.rs 80-92): `shortcuts`, `timer`,
`notifications` and `autostart` are required; `advanced` carries
`#[serde(default)]`, `analytics_enabled` carries
`#[serde(default = "default_analytics_enabled")]`, `hide_icon_on_close`
carries `#[serde(default)]`. -/
def parseAppSettings (d : AppSettingsDoc) : Except String AppSettings := do
  let sc ← reqField "shortcuts" d.shortcuts
  let tmDoc ← reqField "timer" d.timer
  let tm ← parseTimerSettings tmDoc
  let ntDoc ← reqField "notifications" d.notifications
  let nt ← parseNotificationSettings ntDoc
  let auto ← reqField "autostart" d.autostart
  Except.ok { shortcuts := parseShortcutSettings sc,
              timer := tm,
              notifications := nt,
              advanced := (match d.advanced with
                           | none => AdvancedSettings.default
                           | some ad => parseAdvancedSettings ad),
              autostart := auto,
              analytics_enabled := d.analytics_enabled.getD default_analytics_enabled,
              hide_icon_on_close := d.hide_icon_on_close.getD false }

/-- `load_settings` (lib.rs 662-680): absent file yields the compiled-in
defaults; an unparsable file is a hard error; otherwise deserialize with
field-level defaulting as declared by the serde attributes. -/
def load_settings : StoredFile AppSettingsDoc → Except String AppSettings
  | .absent => Except.ok AppSettings.default
  | .corrupt => Except.error "Failed to parse settings"
  | .json d => parseAppSettings d

/-- A fully populated shortcuts document. -/
def fullShortcutDoc : ShortcutSettingsDoc :=
  { start_stop := some (some "CommandOrControl+Alt+Space"),
    reset := some (some "CommandOrControl+Alt+R"),
    skip := some (some "CommandOrControl+Alt+S") }

/-- A fully populated timer document. -/
def fullTimerDoc : TimerSettingsDoc :=
  { focus_duration := some 25, break_duration := some 5,
    long_break_duration := some 20, total_sessions := some 10,
    weekly_goal_minutes := some 125 }

/-- A fully populated notifications document. -/
def fullNotifDoc : NotificationSettingsDoc :=
  { desktop_notifications := some true, sound_notifications := some true,
    auto_start_timer := some true, auto_start_focus := some false,
    allow_continuous_sessions := some false, smart_pause := some false,
    smart_pause_timeout := some 30 }

/-- A settings document complete except for the `autostart` field. -/
def docMissingAutostart : AppSettingsDoc :=
  { shortcuts := some fullShortcutDoc, timer := some fullTimerDoc,
    notifications := some fullNotifDoc,
    advanced := some { debug_mode := some false },
    autostart := none, analytics_enabled := some true,
    hide_icon_on_close := some false }

/-- **C4 counterexample.** The claim says every missing field defaults at
field level and loading never fails whole-record.  But `autostart` has no
serde default: a document missing only `autostart` fails to load instead of
defaulting to `false`. -/
theorem C4_counterexample :
    load_settings (StoredFile.json docMissingAutostart) =
      Except.error "missing field autostart" := by
  rfl

/-- **C4 (amended).** Field-level defaulting holds exactly for the fields
with a serde default: for any document in which the required fields
(`shortcuts`, `timer` with its four duration/count fields, `notifications`
with its five non-defaulted fields, and `autostart`) are present, loading
succeeds; `weekly_goal_minutes` defaults to 125 when missing,
`auto_start_focus`, `allow_continuous_sessions`, `hide_icon_on_close` and
`advanced.debug_mode` default to false, `analytics_enabled` defaults to
true, and every explicitly-present field is preserved unchanged. -/
theorem C4_field_level_defaults (d : AppSettingsDoc) (sc : ShortcutSettingsDoc)
    (tm : TimerSettingsDoc) (nt : NotificationSettingsDoc) (auto : Bool)
    (f b lb tot : Nat) (dn sn ast sp : Bool) (spt : Nat)
    (hsc : d.shortcuts = some sc) (htm : d.timer = some tm)
    (hnt : d.notifications = some nt) (hauto : d.autostart = some auto)
    (hf : tm.focus_duration = some f) (hb : tm.break_duration = some b)
    (hlb : tm.long_break_duration = some lb) (htot : tm.total_sessions = some tot)
    (hdn : nt.desktop_notifications = some dn) (hsn : nt.sound_notifications = some sn)
    (hast : nt.auto_start_timer = some ast) (hsp : nt.smart_pause = some sp)
    (hspt : nt.smart_pause_timeout = some spt) :
    load_settings (StoredFile.json d) = Except.ok
      { shortcuts := { start_stop := sc.start_stop.getD none,
                       reset := sc.reset.getD none,
                       skip := sc.skip.getD none },
        timer := { focus_duration := f, break_duration := b,
                   long_break_duration := lb, total_sessions := tot,
                   weekly_goal_minutes := tm.weekly_goal_minutes.getD default_weekly_goal },
        notifications := { desktop_notifications := dn, sound_notifications := sn,
                           auto_start_timer := ast,
                           auto_start_focus := nt.auto_start_focus.getD false,
                           allow_continuous_sessions := nt.allow_continuous_sessions.getD false,
                           smart_pause := sp, smart_pause_timeout := spt },
        advanced := { debug_mode := (d.advanced.getD { debug_mode := none }).debug_mode.getD false },
        autostart := auto,
        analytics_enabled := d.analytics_enabled.getD default_analytics_enabled,
        hide_icon_on_close := d.hide_icon_on_close.getD false } := by
  rcases hadv : d.advanced with _ | ad
  · simp [load_settings, parseAppSettings, parseTimerSettings,
      parseNotificationSettings, parseShortcutSettings, parseAdvancedSettings,
      AdvancedSettings.default, reqField, Bind.bind, Except.bind,
      hsc, htm, hnt, hauto, hadv, hf, hb, hlb, htot, hdn, hsn, hast, hsp, hspt]
  · simp [load_settings, parseAppSettings, parseTimerSettings,
      parseNotificationSettings, parseShortcutSettings, parseAdvancedSettings,
      reqField, Bind.bind, Except.bind, hsc, htm, hnt, hauto, hadv,
      hf, hb, hlb, htot, hdn, hsn, hast, hsp, hspt]

/-- A timer document missing only `weekly_goal_minutes`. -/
def timerDocMissingWeekly : TimerSettingsDoc :=
  { focus_duration := some 30, break_duration := some 10,
    long_break_duration := some 15, total_sessions := some 8,
    weekly_goal_minutes := none }

/-- A settings document whose timer section is missing
`weekly_goal_minutes` and which omits all serde-defaulted fields. -/
def docMissingWeekly : AppSettingsDoc :=
  { shortcuts := some fullShortcutDoc, timer := some timerDocMissingWeekly,
    notifications := some fullNotifDoc, advanced := none,
    autostart := some true, analytics_enabled := none,
    hide_icon_on_close := none }

/-- Witness for the amended C4: the claim's own example, a document missing
`weekly_goal_minutes`, loads with `weekly_goal_minutes = 125` and the
explicitly-present fields (for example `focus_duration = 30`,
`autostart = true`) preserved. -/
theorem C4_field_level_defaults_witness :
    load_settings (StoredFile.json docMissingWeekly) = Except.ok
      { shortcuts := { start_stop := some "CommandOrControl+Alt+Space",
                       reset := some "CommandOrControl+Alt+R",
                       skip := some "CommandOrControl+Alt+S" },
        timer := { focus_duration := 30, break_duration := 10,
                   long_break_duration := 15, total_sessions := 8,
                   weekly_goal_minutes := 125 },
        notifications := { desktop_notifications := true, sound_notifications := true,
                           auto_start_timer := true, auto_start_focus := false,
                           allow_continuous_sessions := false, smart_pause := false,
                           smart_pause_timeout := 30 },
        advanced := { debug_mode := false },
        autostart := true,
        analytics_enabled := true,
        hide_icon_on_close := false } := by
  have h := C4_field_level_defaults docMissingWeekly fullShortcutDoc
    timerDocMissingWeekly fullNotifDoc true 30 10 15 8 true true true false 30
    rfl rfl rfl rfl rfl rfl rfl rfl rfl rfl rfl rfl rfl
  simpa [fullShortcutDoc, timerDocMissingWeekly, fullNotifDoc, docMissingWeekly,
    default_weekly_goal, default_analytics_enabled] using h

/-- **C9.** When no settings file exists, `load_settings` returns the full
compiled-in defaults: focus 25, break 5, long break 20, 10 sessions,
weekly goal 125, the three default shortcut combos, all primary
notification toggles on with the serde-defaulted ones off, smart pause off
with a 30s timeout, debug off, autostart off, analytics on, and the
hide-icon flag off. -/
theorem C9_compiled_defaults :
    load_settings StoredFile.absent = Except.ok AppSettings.default ∧
    AppSettings.default.timer.focus_duration = 25 ∧
    AppSettings.default.timer.break_duration = 5 ∧
    AppSettings.default.timer.long_break_duration = 20 ∧
    AppSettings.default.timer.total_sessions = 10 ∧
    AppSettings.default.timer.weekly_goal_minutes = 125 ∧
    AppSettings.default.shortcuts.start_stop = some "CommandOrControl+Alt+Space" ∧
    AppSettings.default.shortcuts.reset = some "CommandOrControl+Alt+R" ∧
    AppSettings.default.shortcuts.skip = some "CommandOrControl+Alt+S" ∧
    AppSettings.default.notifications.desktop_notifications = true ∧
    AppSettings.default.notifications.sound_notifications = true ∧
    AppSettings.default.notifications.auto_start_timer = true ∧
    AppSettings.default.notifications.auto_start_focus = false ∧
    AppSettings.default.notifications.allow_continuous_sessions = false ∧
    AppSettings.default.notifications.smart_pause = false ∧
    AppSettings.default.notifications.smart_pause_timeout = 30 ∧
    AppSettings.default.advanced.debug_mode = false ∧
    AppSettings.default.autostart = false ∧
    AppSettings.default.analytics_enabled = true ∧
    AppSettings.default.hide_icon_on_close = false := by
  refine ⟨rfl, rfl, rfl, rfl, rfl, rfl, rfl, rfl, rfl, rfl, rfl, rfl, rfl, rfl,
    rfl, rfl, rfl, rfl, rfl, rfl⟩

/-- **C5 counterexample.** The claim says loading history and
manual-sessions degrades to an empty collection on malformed JSON.  In the
code both `get_stats_history` and `load_manual_sessions` propagate the
parse failure as an error instead. -/
theorem C5_counterexample :
    (get_stats_history StoredFile.corrupt).isOk = false ∧
    get_stats_history StoredFile.corrupt ≠ Except.ok [] ∧
    (load_manual_sessions StoredFile.corrupt).isOk = false ∧
    load_manual_sessions StoredFile.corrupt ≠ Except.ok [] := by
  refine ⟨rfl, ?_, rfl, ?_⟩
  · intro h
    exact Except.noConfusion h
  · intro h
    exact Except.noConfusion h

/-- **C5 (amended).** On malformed persisted JSON: settings, history (via
`get_stats_history`), manual-sessions and tasks surface explicit errors to
the caller; tags and session-tags degrade to the empty collection; and the
history read inside `save_daily_stats` also degrades to the empty list. -/
theorem C5_parse_error_handling :
    (load_settings StoredFile.corrupt).isOk = false ∧
    (get_stats_history StoredFile.corrupt).isOk = false ∧
    (load_manual_sessions StoredFile.corrupt).isOk = false ∧
    (load_tasks StoredFile.corrupt).isOk = false ∧
    (∀ now_secs : Nat, load_tags now_secs StoredFile.corrupt = Except.ok []) ∧
    load_session_tags StoredFile.corrupt = Except.ok [] ∧
    historyForSave StoredFile.corrupt = [] := by
  exact ⟨rfl, rfl, rfl, rfl, fun _ => rfl, rfl, rfl⟩

/-- **C10.** When `tags.json` is absent, `load_tags` returns the one-element
list holding the built-in default tag (id `default-focus`, name `Focus`) —
not the empty list — while every other collection loader treats an absent
file as the empty collection. -/
theorem C10_default_tag_on_absent (now_secs : Nat) :
    load_tags now_secs StoredFile.absent = Except.ok [default_tag now_secs] ∧
    (default_tag now_secs).id = "default-focus" ∧
    (default_tag now_secs).name = "Focus" ∧
    load_tags now_secs StoredFile.absent ≠ Except.ok [] ∧
    get_stats_history StoredFile.absent = Except.ok [] ∧
    load_manual_sessions StoredFile.absent = Except.ok [] ∧
    load_session_tags StoredFile.absent = Except.ok [] ∧
    load_tasks StoredFile.absent = Except.ok [] := by
  refine ⟨rfl, rfl, rfl, ?_, rfl, rfl, rfl, rfl⟩
  intro h
  simp [load_tags] at h

/-- Witness for C10 at the concrete epoch time 1700000000. -/
theorem C10_default_tag_on_absent_witness :
    load_tags 1700000000 StoredFile.absent =
      Except.ok [default_tag 1700000000] ∧
    (default_tag 1700000000).name = "Focus" := by
  have h := C10_default_tag_on_absent 1700000000
  exact ⟨h.1, h.2.2.1⟩

/-! ### Activity monitor (`ActivityMonitor`, lib.rs 26-31 and 200-372)

The shared state behind the three `Arc<Mutex<...>>` fields, with `Instant`
and `Duration` as `Nat` in one abstract time unit.  The global
`ACTIVITY_MONITOR: Mutex<Option<ActivityMonitor>>` is an
`Option MonitorState`.  The polling loop body (lib.rs 224-271) is
`pollIteration`, taking the sampled activity flag and the current time. -/

structure MonitorState where
  last_activity : Nat
  is_monitoring : Bool
  inactivity_threshold : Nat
deriving DecidableEq

/-- `ActivityMonitor::new` (lib.rs 201-208): the only place the shared
last-activity timestamp is initialized to `Instant::now()`. -/
def ActivityMonitor.new (now timeout_seconds : Nat) : MonitorState :=
  { last_activity := now, is_monitoring := false,
    inactivity_threshold := timeout_seconds }

/-- `ActivityMonitor::start_monitoring` (lib.rs 210-275): if already
monitoring, return leaving the state untouched; otherwise flip the flag and
spawn the loop.  It never writes `last_activity`. -/
def start_monitoring (m : MonitorState) : MonitorState :=
  if m.is_monitoring then m else { m with is_monitoring := true }

/-- `ActivityMonitor::stop_monitoring` (lib.rs 317-320). -/
def stop_monitoring (m : MonitorState) : MonitorState :=
  { m with is_monitoring := false }

/-- `ActivityMonitor::update_threshold` (lib.rs 322-325). -/
def update_threshold (timeout_seconds : Nat) (m : MonitorState) : MonitorState :=
  { m with inactivity_threshold := timeout_seconds }

/-- `start_activity_monitoring` (lib.rs 328-349): create the monitor only
if the global slot is empty, then start it.  On the `Some` path the
`timeout_seconds` argument is not used at all. -/
def start_activity_monitoring (now timeout_seconds : Nat)
    (g : Option MonitorState) : Option MonitorState :=
  match g with
  | none => some (start_monitoring (ActivityMonitor.new now timeout_seconds))
  | some m => some (start_monitoring m)

/-- `stop_activity_monitoring` (lib.rs 351-360). -/
def stop_activity_monitoring (g : Option MonitorState) : Option MonitorState :=
  match g with
  | none => none
  | some m => some (stop_monitoring m)

inductive ActivityEvent where
  | activity
  | inactivity
deriving DecidableEq

/-- One iteration of the polling loop body (lib.rs 239-268): on activity,
update the timestamp and emit the activity event; otherwise if the elapsed
time since the last activity reaches the threshold, emit the inactivity
event and reset the timestamp to now. -/
def pollIteration (has_activity : Bool) (now : Nat) (m : MonitorState) :
    MonitorState × List ActivityEvent :=
  if has_activity then
    ({ m with last_activity := now }, [ActivityEvent.activity])
  else if m.inactivity_threshold ≤ now - m.last_activity then
    ({ m with last_activity := now }, [ActivityEvent.inactivity])
  else
    (m, [])

/-- Run the loop over a continuous idle period (`has_activity` false at
every tick) at the given poll times, returning the times at which an
inactivity event was emitted. -/
def runIdlePolls (times : List Nat) (m : MonitorState) : List Nat :=
  match times with
  | [] => []
  | t :: rest =>
      if (pollIteration false t m).2.isEmpty then
        runIdlePolls rest (pollIteration false t m).1
      else
        t :: runIdlePolls rest (pollIteration false t m).1

theorem pollIteration_idle_fire (now : Nat) (m : MonitorState)
    (h : m.inactivity_threshold ≤ now - m.last_activity) :
    pollIteration false now m =
      ({ m with last_activity := now }, [ActivityEvent.inactivity]) := by
  simp [pollIteration, h]

theorem pollIteration_idle_wait (now : Nat) (m : MonitorState)
    (h : ¬ m.inactivity_threshold ≤ now - m.last_activity) :
    pollIteration false now m = (m, []) := by
  simp [pollIteration, h]

theorem chain_le_weaken {a b : Nat} {l : List Nat} (hab : a ≤ b)
    (h : List.Chain (fun x y => x ≤ y) b l) :
    List.Chain (fun x y => x ≤ y) a l := by
  cases h with
  | nil => exact List.Chain.nil
  | cons hbc hrest => exact List.Chain.cons (le_trans hab hbc) hrest

/-- Inactivity emissions during a continuous idle period are spaced at
least one threshold apart, the first coming no sooner than one threshold
after the initial baseline. -/
theorem runIdlePolls_spacing :
    ∀ (times : List Nat) (m : MonitorState),
      List.Chain (fun x y => x ≤ y) m.last_activity times →
      List.Chain (fun x y => x + m.inactivity_threshold ≤ y) m.last_activity
        (runIdlePolls times m) := by
  intro times
  induction times with
  | nil => intro m _; exact List.Chain.nil
  | cons t rest ih =>
      intro m hchain
      rcases hchain with _ | ⟨hmt, hrest⟩
      by_cases hfire : m.inactivity_threshold ≤ t - m.last_activity
      · rw [runIdlePolls, pollIteration_idle_fire t m hfire]
        simp only [List.isEmpty_cons, if_neg]
        refine List.Chain.cons (by omega) ?_
        have hrec := ih { m with last_activity := t } (by simpa using hrest)
        simpa using hrec
      · rw [runIdlePolls, pollIteration_idle_wait t m hfire]
        simp only [List.isEmpty_nil, if_pos]
        exact ih m (chain_le_weaken hmt hrest)

/-- **C7.** When an idle poll tick finds the elapsed time at or beyond the
threshold, it emits exactly one inactivity event and resets the
last-activity timestamp to now; consequently over a continuous idle period
(polled at nondecreasing times starting from the baseline) consecutive
inactivity emissions are at least one full threshold apart — never one per
poll tick. -/
theorem C7_inactivity_once_per_interval (m : MonitorState) (now : Nat)
    (times : List Nat)
    (hfire : m.inactivity_threshold ≤ now - m.last_activity) :
    pollIteration false now m =
      ({ m with last_activity := now }, [ActivityEvent.inactivity]) ∧
    (List.Chain (fun x y => x ≤ y) m.last_activity times →
      List.Chain (fun x y => x + m.inactivity_threshold ≤ y) m.last_activity
        (runIdlePolls times m)) :=
  ⟨pollIteration_idle_fire now m hfire, runIdlePolls_spacing times m⟩

/-- Witness for C7: threshold 60, baseline 0, idle polls at 10, 60, 70 and
130 — the run emits at 60 and 130 only, one threshold apart. -/
theorem C7_inactivity_once_per_interval_witness :
    pollIteration false 60 ⟨0, true, 60⟩ = (⟨60, true, 60⟩, [ActivityEvent.inactivity]) ∧
    runIdlePolls [10, 60, 70, 130] ⟨0, true, 60⟩ = [60, 130] ∧
    List.Chain (fun x y => x + 60 ≤ y) 0 [60, 130] := by
  have h := C7_inactivity_once_per_interval ⟨0, true, 60⟩ 60 [10, 60, 70, 130]
    (by decide)
  have hchain := h.2 (by simp [List.chain_cons])
  have hrun : runIdlePolls [10, 60, 70, 130] ⟨0, true, 60⟩ = [60, 130] := by decide
  exact ⟨h.1, hrun, hrun ▸ hchain⟩

/-- **C6 counterexample.** The claim says start in the Stopped state —
including immediately after `stop()` — re-initializes the last-activity
baseline to now.  Start at time 0, stop, then start again at time 1000:
the monitor is Running but its baseline is still 0, not 1000. -/
theorem C6_counterexample :
    start_activity_monitoring 1000 60
        (stop_activity_monitoring (start_activity_monitoring 0 60 none)) =
      some ⟨0, true, 60⟩ ∧
    (⟨0, true, 60⟩ : MonitorState).last_activity ≠ 1000 := by
  exact ⟨rfl, by decide⟩

/-- **C6 (amended).** Starting an already-Running monitor is a no-op and
the second call's threshold argument is ignored; the last-activity
timestamp is initialized to the current time only when the monitor
instance is first created (global slot empty); restarting after `stop()`
only flips the flag back to Running, keeping the old baseline and the old
threshold (the restart call's arguments are ignored). -/
theorem C6_start_semantics (m : MonitorState) (now timeout_seconds : Nat)
    (hrun : m.is_monitoring = true) :
    start_activity_monitoring now timeout_seconds (some m) = some m ∧
    (∀ now2 timeout2 : Nat, start_activity_monitoring now2 timeout2 none =
      some { last_activity := now2, is_monitoring := true,
             inactivity_threshold := timeout2 }) ∧
    (∀ (m2 : MonitorState) (now3 timeout3 : Nat),
      start_activity_monitoring now3 timeout3 (some (stop_monitoring m2)) =
        some { m2 with is_monitoring := true }) := by
  refine ⟨?_, ?_, ?_⟩
  · simp [start_activity_monitoring, start_monitoring, hrun]
  · intro now2 timeout2
    simp [start_activity_monitoring, start_monitoring, ActivityMonitor.new]
  · intro m2 now3 timeout3
    simp [start_activity_monitoring, start_monitoring, stop_monitoring]

/-- Witness for the amended C6: a running monitor with baseline 5 and
threshold 60; a second start at time 99 with threshold 7 changes nothing. -/
theorem C6_start_semantics_witness :
    start_activity_monitoring 99 7 (some ⟨5, true, 60⟩) = some ⟨5, true, 60⟩ ∧
    start_activity_monitoring 99 7 none = some ⟨99, true, 7⟩ ∧
    start_activity_monitoring 1000 7 (some (stop_monitoring ⟨5, true, 60⟩)) =
      some ⟨5, true, 60⟩ := by
  have h := C6_start_semantics ⟨5, true, 60⟩ 99 7 rfl
  exact ⟨h.1, h.2.1 99 7, h.2.2 ⟨5, true, 60⟩ 1000 7⟩

/-! ### `reset_all_data` (lib.rs 755-785)

The data directory is a map from file name to existence.  Removal of an
existing file always succeeds in this model, so the command returns Ok. -/

/-- The `files_to_delete` vector (lib.rs 762-768). -/
def files_to_delete : List String :=
  ["session.json", "tasks.json", "history.json", "settings.json",
   "manual_sessions.json"]

/-- `reset_all_data`: delete each file of `files_to_delete` that exists. -/
def reset_all_data (fs : String → Bool) : String → Bool :=
  fun file_name => if file_name ∈ files_to_delete then false else fs file_name

/-- **C8 counterexample.** The claim says reset deletes `tags.json` and
`session_tags.json` too; in the code neither is in `files_to_delete`, so
both survive a reset of a directory where every file exists. -/
theorem C8_counterexample :
    reset_all_data (fun _ => true) "tags.json" = true ∧
    reset_all_data (fun _ => true) "session_tags.json" = true ∧
    "tags.json" ∉ files_to_delete ∧
    "session_tags.json" ∉ files_to_delete := by
  refine ⟨by decide, by decide, by decide, by decide⟩

/-- **C8 (amended).** `reset_all_data` deletes exactly `session.json`,
`tasks.json`, `history.json`, `settings.json` and `manual_sessions.json`
(succeeding whether or not each exists); `tags.json` and
`session_tags.json` are left untouched. -/
theorem C8_reset_deletes (fs : String → Bool) :
    reset_all_data fs "session.json" = false ∧
    reset_all_data fs "tasks.json" = false ∧
    reset_all_data fs "history.json" = false ∧
    reset_all_data fs "settings.json" = false ∧
    reset_all_data fs "manual_sessions.json" = false ∧
    reset_all_data fs "tags.json" = fs "tags.json" ∧
    reset_all_data fs "session_tags.json" = fs "session_tags.json" := by
  refine ⟨?_, ?_, ?_, ?_, ?_, ?_, ?_⟩
  all_goals simp [reset_all_data, files_to_delete]

/-- Witness for the amended C8 on the everything-exists directory. -/
theorem C8_reset_deletes_witness :
    reset_all_data (fun _ => true) "session.json" = false ∧
    reset_all_data (fun _ => true) "tags.json" = true := by
  have h := C8_reset_deletes (fun _ => true)
  exact ⟨h.1, h.2.2.2.2.2.1⟩

end Presto
